import Mathlib

/-!
Verification of the IoTSimulation repository.

The development shallowly embeds the parts of the code the claims are
about:

* `app/core/utils.py` — `align_time_to_interval`, over an idealized
  timeline of microseconds since an epoch (`Int`), with the datetime
  accessors (`minute`, `second`, `microsecond`) and
  `replace(minute=·, second=0, microsecond=0)` made explicit;
* `app/simulation/simulator.py` — `send_with_retry` and the
  `generate_temperature_data` loop, with the per-attempt network outcome
  injected as a function from attempt index to outcome, and the loop
  given explicit fuel so nontermination is observable;
* `app/api/v1/schemas.py`, `app/db/queries.py`,
  `app/api/v1/temperature.py` and `app/main.py` — the ingestion and
  average-query pipelines: pydantic field validation, the database layer
  with its rollback behaviour (the database outcome injected), and the
  HTTP responses after FastAPI's `HTTPException` handler has rendered
  them to `{"error": ..., "code": ...}` bodies.

Python floats appearing only in comparisons (temperatures) are modelled
as rationals; Python strings as `String`.
-/

/-- Microseconds per second, minute and hour, matching Python `datetime`
resolution. -/
def usPerSec : Int := 1000000

/-- Microseconds per minute. -/
def usPerMin : Int := 60000000

/-- Microseconds per hour. -/
def usPerHour : Int := 3600000000

/-- The `minute` attribute of a datetime given as microseconds since the
epoch. -/
def dtMinute (t : Int) : Int := (t / usPerMin) % 60

/-- The `second` attribute of a datetime. -/
def dtSecond (t : Int) : Int := (t / usPerSec) % 60

/-- The `microsecond` attribute of a datetime. -/
def dtMicrosecond (t : Int) : Int := t % usPerSec

/-- The start of the hour containing `t`, i.e. `t` with minute, second
and microsecond zeroed. -/
def dtHourStart (t : Int) : Int := usPerHour * (t / usPerHour)

/-- Python `t.replace(minute=m, second=0, microsecond=0)`. -/
def dtReplace (t m : Int) : Int := dtHourStart t + m * usPerMin

/-- Embedding of `align_time_to_interval` from `app/core/utils.py`:
when `interval` is `none` the process-wide `settings.alignment_interval`
(passed here as `cfgInterval`) is used; the minute is floored to a
multiple of the interval, seconds and microseconds are zeroed, and one
further interval is subtracted. -/
def align_time_to_interval (cfgInterval : Nat) (now : Int)
    (interval : Option Nat) : Int :=
  let i : Int := (interval.getD cfgInterval : Nat)
  let aligned_minutes := dtMinute now / i * i
  let aligned_time := dtReplace now aligned_minutes
  aligned_time - i * usPerMin
/-- Outcome of one POST attempt as observed by `send_with_retry` in
`app/simulation/simulator.py`: either the transport raised an exception
or a response with the given HTTP status arrived. -/
inductive AttemptOutcome where
  | exn (msg : String)
  | response (status : Nat)
deriving DecidableEq, Repr

/-- The aiohttp POST inside the `try` block: it raises (`.error`) or
yields a status code. -/
def attempt_result (o : AttemptOutcome) : Except String Nat :=
  match o with
  | .exn e => .error e
  | .response s => .ok s

/-- Observable trace of one `send_with_retry` call: the returned
boolean, how many attempts ran, and the `asyncio.sleep` delays taken (in
order). -/
structure SendTrace where
  result : Bool
  attempts : Nat
  delays : List ℚ
deriving DecidableEq, Repr

/-- Loop of `send_with_retry`, recursing on the remaining attempts of
`range(retries)`; `attempt` is the current 0-based index. A transport
exception is caught by the `except Exception` clause and falls through,
like a non-201 status, to the `asyncio.sleep(backoff_factor**attempt)`
at the bottom of the loop body; only a 201 returns early. An exception
that escaped the loop would surface as `.error`. -/
def send_loop (outcome : Nat → AttemptOutcome) (backoff_factor : ℚ)
    (attempt : Nat) : Nat → Except String SendTrace
  | 0 => .ok ⟨false, 0, []⟩
  | remaining + 1 =>
    let retry : Except String SendTrace := do
      let rest ← send_loop outcome backoff_factor (attempt + 1) remaining
      pure ⟨rest.result, rest.attempts + 1,
        backoff_factor ^ attempt :: rest.delays⟩
    match attempt_result (outcome attempt) with
    | .ok 201 => .ok ⟨true, 1, []⟩
    | .ok _ => retry
    | .error _ => retry

/-- Embedding of `send_with_retry(url, payload, retries, backoff_factor)`
from `app/simulation/simulator.py`; the network is injected as the map
from attempt index to outcome (url and payload only determine that map,
so they are elided). -/
def send_with_retry (outcome : Nat → AttemptOutcome) (retries : Nat)
    (backoff_factor : ℚ) : Except String SendTrace :=
  send_loop outcome backoff_factor 0 retries

/-- Whether an attempt outcome counts as success (HTTP 201 Created). -/
def attempt_success (o : AttemptOutcome) : Bool :=
  match o with
  | .response 201 => true
  | _ => false

instance decEqExcept {ε α : Type} [DecidableEq ε] [DecidableEq α] :
    DecidableEq (Except ε α) := fun a b =>
  match a, b with
  | .ok x, .ok y => decidable_of_iff (x = y) (by simp)
  | .error x, .error y => decidable_of_iff (x = y) (by simp)
  | .ok _, .error _ => isFalse (by simp)
  | .error _, .ok _ => isFalse (by simp)
/-- State of the `generate_temperature_data` loop: the `iteration`
counter and how many `send_with_retry` calls have been made. -/
structure GenState where
  iteration : Nat
  sends : Nat
deriving DecidableEq, Repr

/-- The `while max_iterations is None or iteration < max_iterations`
guard of `generate_temperature_data`. -/
def gen_guard : Option Nat → Nat → Bool
  | none, _ => true
  | some n, iteration => iteration < n

/-- Embedding of the `generate_temperature_data` loop from
`app/simulation/simulator.py`, with explicit fuel so nontermination is
observable: each loop iteration performs exactly one send and increments
`iteration`; the call returns `none` when the fuel is exhausted while
the guard still holds. -/
def generate_temperature_data (max_iterations : Option Nat) :
    Nat → GenState → Option GenState
  | 0, st => if gen_guard max_iterations st.iteration then none else some st
  | fuel + 1, st =>
    if gen_guard max_iterations st.iteration then
      generate_temperature_data max_iterations fuel
        ⟨st.iteration + 1, st.sends + 1⟩
    else some st

/-- A temperature reading as parsed by pydantic from a POST body
(`TemperatureRequest` in `app/api/v1/schemas.py`): the timestamp is the
instant in microseconds plus a flag recording whether the parsed
datetime carried timezone information (the schema's `datetime` field
accepts both). -/
structure TemperatureRequestData where
  building_id : String
  room_id : String
  temperature : ℚ
  timestamp : Int
  tz_aware : Bool
deriving DecidableEq, Repr

/-- Pydantic field validation of `TemperatureRequest`: ids have
`max_length=255` (no minimum length), temperature has `ge=-50, le=50`;
the timestamp field imposes no timezone requirement. -/
def temperature_request_valid (r : TemperatureRequestData) : Bool :=
  decide (r.building_id.length ≤ 255) && decide (r.room_id.length ≤ 255) &&
    decide (-50 ≤ r.temperature) && decide (r.temperature ≤ 50)

/-- Pydantic field validation of `TemperatureQuery`: both ids
`min_length=1, max_length=255` (the model validator rejects empty ids
too); `query_datetime` is optional. -/
def temperature_query_valid (building_id room_id : String) : Bool :=
  decide (1 ≤ building_id.length) && decide (building_id.length ≤ 255) &&
    decide (1 ≤ room_id.length) && decide (room_id.length ≤ 255)

/-- A row of the `temperatures` table (`app/db/models.py`), timestamp
stored in UTC. -/
structure TemperatureRow where
  building_id : String
  room_id : String
  temperature : ℚ
  timestamp : Int
deriving DecidableEq, Repr

/-- Injected outcome of a database operation: commit succeeds or raises
`SQLAlchemyError`. -/
inductive DbOutcome where
  | ok
  | sqlError
deriving DecidableEq, Repr

/-- The exceptions `insert_temperature` can raise. -/
inductive InsertError where
  | valueError (msg : String)
  | sqlAlchemyError
deriving DecidableEq, Repr

/-- Embedding of `insert_temperature` from `app/db/queries.py`: a naive
timestamp raises `ValueError` before anything is added to the session;
an aware timestamp is converted to UTC (the same instant) and the row
appended; a `SQLAlchemyError` from the commit is re-raised after
`rollback()`, so on `.error` the table is unchanged and no in-flight
write survives. -/
def insert_temperature (db : List TemperatureRow)
    (building_id room_id : String) (temperature : ℚ) (timestamp : Int)
    (tz_aware : Bool) (outcome : DbOutcome) :
    Except InsertError (List TemperatureRow) :=
  if tz_aware = false then
    .error (.valueError "Timestamp must be timezone-aware.")
  else
    match outcome with
    | .ok => .ok (db ++ [⟨building_id, room_id, temperature, timestamp⟩])
    | .sqlError => .error .sqlAlchemyError

/-- Body of an HTTP response as the client sees it, after `app/main.py`'s
`HTTPException` handler has rendered errors as
`{"error": detail, "code": status}` (FastAPI's own 422 body is the
`detail` list, abstracted here). -/
inductive ResponseBody where
  | message (message : String)
  | validationDetail
  | errorBody (error : String) (code : Nat)
  | averageBody (average_temperature : Option ℚ) (message : Option String)
deriving DecidableEq, Repr

/-- An HTTP response: status code and rendered body. -/
structure HttpResponse where
  status : Nat
  body : ResponseBody
deriving DecidableEq, Repr

/-- Embedding of the `POST /v1/temperature/` pipeline: pydantic
validation (FastAPI answers 422 before the handler runs), then
`add_temperature` from `app/api/v1/temperature.py`: a successful insert
answers 201, `SQLAlchemyError` answers 500 `"Database error occurred."`,
and any other exception — including the `ValueError` for a naive
timestamp — is caught by the generic clause and answers 500 with an
incident reference. The returned list is the table after the request. -/
def add_temperature (req : TemperatureRequestData)
    (db : List TemperatureRow) (outcome : DbOutcome)
    (incident_id : String) : HttpResponse × List TemperatureRow :=
  if temperature_request_valid req then
    match insert_temperature db req.building_id req.room_id
        req.temperature req.timestamp req.tz_aware outcome with
    | .ok db2 => (⟨201, .message "Temperature data added"⟩, db2)
    | .error .sqlAlchemyError =>
      (⟨500, .errorBody "Database error occurred." 500⟩, db)
    | .error (.valueError _) =>
      (⟨500, .errorBody
        ("An unexpected error occurred. Reference ID: " ++ incident_id)
        500⟩, db)
  else (⟨422, .validationDetail⟩, db)

/-- A row of the continuous-aggregate view `avg_temperature`
(`app/db/models.py`): one average per (building, room, bucket). -/
structure AvgTemperatureRow where
  building_id : String
  room_id : String
  bucket : Int
  avg_temp : ℚ
deriving DecidableEq, Repr

/-- The `WHERE building_id = … AND room_id = …` filter shared by both
branches of `get_average_temperature`. -/
def avg_row_matches (building_id room_id : String)
    (r : AvgTemperatureRow) : Bool :=
  r.building_id == building_id && r.room_id == room_id

/-- Embedding of `get_average_temperature` from `app/db/queries.py`:
with a start time it selects `avg_temp` of the rows with
`bucket >= start_time` and `result.scalar()` yields the first such row's
value, or `None` when no row matches; with `start_time=None` it orders
by bucket descending with `LIMIT 1`, i.e. takes the row with the
greatest bucket. -/
def get_average_temperature (db : List AvgTemperatureRow)
    (building_id room_id : String) (start_time : Option Int) : Option ℚ :=
  match start_time with
  | some st =>
    ((db.filter fun r => avg_row_matches building_id room_id r &&
      decide (st ≤ r.bucket)).head?).map (·.avg_temp)
  | none =>
    ((db.filter fun r => avg_row_matches building_id room_id r).foldl
      (fun acc r =>
        match acc with
        | none => some r
        | some m => if m.bucket < r.bucket then some r else some m)
      none).map (·.avg_temp)

/-- The `start_time is not None` branch of `get_average_temperature` on
its own, for stating that the other branch is unreachable from the
average endpoint. -/
def get_average_range (db : List AvgTemperatureRow)
    (building_id room_id : String) (start_time : Int) : Option ℚ :=
  ((db.filter fun r => avg_row_matches building_id room_id r &&
    decide (start_time ≤ r.bucket)).head?).map (·.avg_temp)

/-- The start time the average endpoint resolves, per the spec: the
supplied `query_datetime` verbatim when present, otherwise the aligned
current time with the process-wide configured interval. -/
def fetch_start_time (cfg : Nat) (now : Int)
    (query_datetime : Option Int) : Int :=
  match query_datetime with
  | some t => t
  | none => align_time_to_interval cfg now none

/-- The response the average endpoint builds from the storage result,
per the spec: a numeric average with `message = null`, or
`average_temperature = null` with `"No data found"`, both HTTP 200. -/
def average_response (result : Option ℚ) : HttpResponse :=
  match result with
  | none => ⟨200, .averageBody none (some "No data found")⟩
  | some v => ⟨200, .averageBody (some v) none⟩

/-- Embedding of `fetch_average_temperature` from
`app/api/v1/temperature.py`: `start_time` is first set to
`align_time_to_interval(datetime.now())` (interval from settings), then
overwritten by `query.query_datetime` when that is truthy (a parsed
datetime always is; `None` is not); `get_average_temperature` is called
with that start time; `None` becomes the no-data body and a value the
numeric body; a `SQLAlchemyError` from the query answers 500. -/
def fetch_average_temperature (cfg : Nat) (now : Int)
    (building_id room_id : String) (query_datetime : Option Int)
    (db : List AvgTemperatureRow) (outcome : DbOutcome) : HttpResponse :=
  match outcome with
  | .sqlError => ⟨500, .errorBody "Database error occurred." 500⟩
  | .ok =>
    let start_time := align_time_to_interval cfg now none
    let start_time := match query_datetime with
      | some t => t
      | none => start_time
    match get_average_temperature db building_id room_id
        (some start_time) with
    | none => ⟨200, .averageBody none (some "No data found")⟩
    | some avg_temp => ⟨200, .averageBody (some avg_temp) none⟩

example : dtMinute 3900000000 = 5 := by decide
example : align_time_to_interval 4 3900000000 (some 5) = 3600000000 := by decide

example : send_with_retry (fun _ => .exn "boom") 3 2 =
    .ok ⟨false, 3, [1, 2, 4]⟩ := by decide

example : send_with_retry (fun k => if k < 1 then .response 500
    else .response 201) 3 2 = .ok ⟨true, 2, [1]⟩ := by decide

example : generate_temperature_data (some 2) 5 ⟨0, 0⟩ = some ⟨2, 2⟩ := by
  decide

example : generate_temperature_data none 5 ⟨0, 0⟩ = none := by decide

/-- Helper for C1: the aligned time written with the divisions by the
variable interval eliminated, so that the remaining reasoning is linear. -/
lemma align_eq_linear (cfg : Nat) (now : Int) (i : Nat) (hpos : 0 < i) :
    align_time_to_interval cfg now (some i) =
      usPerHour * (now / usPerHour) +
        (dtMinute now - dtMinute now % (i : Int)) * usPerMin -
        (i : Int) * usPerMin := by
  have hI : (0 : Int) < (i : Int) := by exact_mod_cast hpos
  have hqs : (i : Int) * (dtMinute now / (i : Int)) + dtMinute now % (i : Int)
      = dtMinute now := Int.ediv_add_emod _ _
  show dtHourStart now + dtMinute now / (i : Int) * (i : Int) * usPerMin -
      (i : Int) * usPerMin = _
  rw [dtHourStart]
  linear_combination usPerMin * hqs
/-- Helper: when every attempt fails, `send_loop` runs all remaining
attempts, sleeping once after each of them, final attempt included. -/
lemma send_loop_all_fail (outcome : Nat → AttemptOutcome) (b : ℚ)
    (h : ∀ k, attempt_success (outcome k) = false) :
    ∀ remaining attempt, send_loop outcome b attempt remaining =
      .ok ⟨false, remaining,
        (List.range remaining).map fun k => b ^ (attempt + k)⟩ := by
  intro remaining
  induction remaining with
  | zero => intro attempt; simp [send_loop]
  | succ r ih =>
    intro attempt
    have hfail := h attempt
    unfold send_loop
    split
    · rename_i heq
      exfalso
      cases ho : outcome attempt with
      | exn e =>
        rw [ho] at heq
        simp [attempt_result] at heq
      | response st =>
        rw [ho] at heq hfail
        simp [attempt_result] at heq
        rw [heq] at hfail
        simp [attempt_success] at hfail
    · rw [ih (attempt + 1)]
      simp only [Except.bind, bind, pure, Except.pure, Except.ok.injEq,
        SendTrace.mk.injEq, List.range_succ_eq_map, List.map_cons,
        List.map_map, true_and, and_true, eq_self_iff_true]
      congr 1
      apply List.map_congr_left
      intro k _
      simp only [Function.comp]
      congr 1
      omega
    · rw [ih (attempt + 1)]
      simp only [Except.bind, bind, pure, Except.pure, Except.ok.injEq,
        SendTrace.mk.injEq, List.range_succ_eq_map, List.map_cons,
        List.map_map, true_and, and_true, eq_self_iff_true]
      congr 1
      apply List.map_congr_left
      intro k _
      simp only [Function.comp]
      congr 1
      omega

/-- Helper: `send_loop` always yields a value, never an error. -/
lemma send_loop_isOk (outcome : Nat → AttemptOutcome) (b : ℚ) :
    ∀ remaining attempt,
      ∃ tr, send_loop outcome b attempt remaining = .ok tr := by
  intro remaining
  induction remaining with
  | zero => intro attempt; exact ⟨_, rfl⟩
  | succ r ih =>
    intro attempt
    unfold send_loop
    split
    · exact ⟨_, rfl⟩
    · obtain ⟨tr, htr⟩ := ih (attempt + 1)
      exact ⟨_, by rw [htr]; rfl⟩
    · obtain ⟨tr, htr⟩ := ih (attempt + 1)
      exact ⟨_, by rw [htr]; rfl⟩

/-- C2 counterexample: with three attempts all failing and backoff
factor 2, the code sleeps three times — `[1, 2, 4]` — including once
after the final attempt, not `[1, 2]` as claimed. -/
theorem send_with_retry_final_delay_counterexample :
    send_with_retry (fun _ => .exn "network error") 3 2 =
      .ok ⟨false, 3, [1, 2, 4]⟩ ∧ ([1, 2, 4] : List ℚ) ≠ [1, 2] :=
  ⟨by decide, by decide⟩

/-- C2 (amended): if every attempt fails, `send_with_retry` returns
`false` after exactly `retries` attempts, and the delays taken are
`backoff_factor^0, …, backoff_factor^(retries-1)` — one sleep after
every failed attempt, including the final one. -/
theorem send_with_retry_all_fail (outcome : Nat → AttemptOutcome)
    (retries : Nat) (b : ℚ)
    (h : ∀ k, attempt_success (outcome k) = false) :
    send_with_retry outcome retries b =
      .ok ⟨false, retries, (List.range retries).map fun k => b ^ k⟩ := by
  have := send_loop_all_fail outcome b h retries 0
  simpa [send_with_retry] using this

/-- Witness for the amended C2 at a concrete input. -/
theorem send_with_retry_all_fail_witness :
    send_with_retry (fun _ => .response 500) 2 3 =
      .ok ⟨false, 2, (List.range 2).map fun k => (3 : ℚ) ^ k⟩ :=
  send_with_retry_all_fail (fun _ => .response 500) 2 3 (fun _ => rfl)

/-- C7: whatever the transport does on each attempt — exception or any
status — `send_with_retry` returns a boolean outcome; no exception
propagates to the caller. -/
theorem send_with_retry_never_raises (outcome : Nat → AttemptOutcome)
    (retries : Nat) (b : ℚ) :
    (send_with_retry outcome retries b).isOk = true := by
  obtain ⟨tr, htr⟩ := send_loop_isOk outcome b retries 0
  rw [send_with_retry, htr]
  rfl

/-- Helper for C9: from any reached state `⟨k, k⟩` with `k ≤ n`, the
bounded loop stops exactly at `⟨n, n⟩` once given enough fuel. -/
lemma gen_some_run (n : Nat) :
    ∀ fuel k, k ≤ n → n - k ≤ fuel →
      generate_temperature_data (some n) fuel ⟨k, k⟩ = some ⟨n, n⟩ := by
  intro fuel
  induction fuel with
  | zero =>
    intro k hk hf
    have : k = n := by omega
    subst this
    simp [generate_temperature_data, gen_guard]
  | succ f ih =>
    intro k hk hf
    by_cases hlt : k < n
    · have hg : gen_guard (some n) k = true := by
        simp [gen_guard, hlt]
      simp only [generate_temperature_data, hg, if_true]
      exact ih (k + 1) (by omega) (by omega)
    · have : k = n := by omega
      subst this
      simp [generate_temperature_data, gen_guard]

/-- Helper for C9: with `max_iterations = None` the guard never becomes
false, so no amount of fuel makes the loop return. -/
lemma gen_none_run : ∀ fuel st,
    generate_temperature_data none fuel st = none := by
  intro fuel
  induction fuel with
  | zero => intro st; simp [generate_temperature_data, gen_guard]
  | succ f ih => intro st; simp [generate_temperature_data, gen_guard, ih]

/-- C9: with `max_iterations = n` the loop terminates after exactly `n`
iterations and `n` sends; with `max_iterations = None` it never
terminates on its own (no finite fuel suffices). -/
theorem generate_temperature_data_iterations :
    (∀ n fuel, n ≤ fuel →
      generate_temperature_data (some n) fuel ⟨0, 0⟩ = some ⟨n, n⟩) ∧
    (∀ fuel st, generate_temperature_data none fuel st = none) :=
  ⟨fun n fuel h => gen_some_run n fuel 0 (Nat.zero_le n) (by omega),
   gen_none_run⟩

/-- Witness for C9 at a concrete bound and fuel. -/
theorem generate_temperature_data_iterations_witness :
    generate_temperature_data (some 2) 3 ⟨0, 0⟩ = some ⟨2, 2⟩ :=
  generate_temperature_data_iterations.1 2 3 (by decide)

/-- C1: for every datetime `now` and positive interval dividing 60,
`align_time_to_interval(now, interval)` has zero seconds and
microseconds, its minute is a multiple of the interval, and it precedes
minutes. -/
theorem align_time_to_interval_spec (cfg : Nat) (now : Int) (i : Nat)
    (hpos : 0 < i) (hdvd : (i : Int) ∣ 60) :
    dtSecond (align_time_to_interval cfg now (some i)) = 0 ∧
    dtMicrosecond (align_time_to_interval cfg now (some i)) = 0 ∧
    (i : Int) ∣ dtMinute (align_time_to_interval cfg now (some i)) ∧
    (i : Int) * usPerMin ≤ now - align_time_to_interval cfg now (some i) ∧
    now - align_time_to_interval cfg now (some i) <
      2 * (i : Int) * usPerMin := by
  have hI : (0 : Int) < (i : Int) := by exact_mod_cast hpos
  set t := align_time_to_interval cfg now (some i) with ht
  set m := dtMinute now with hmdef
  set s := m % (i : Int) with hsdef
  have hs0 : 0 ≤ s := Int.emod_nonneg m hI.ne'
  have hsi : s < (i : Int) := Int.emod_lt_of_pos m hI
  have hlin : t = usPerHour * (now / usPerHour) + (m - s) * usPerMin -
      (i : Int) * usPerMin := align_eq_linear cfg now i hpos
  -- `i` divides `m - s` (it is the floored multiple of the interval)
  have hdvd_ms : (i : Int) ∣ m - s := by
    have := Int.ediv_add_emod m (i : Int)
    exact ⟨m / (i : Int), by omega⟩
  -- express `t` as a whole number of minutes
  have hK : t = usPerMin * (60 * (now / usPerHour) + (m - s) -
      (i : Int)) := by
    rw [hlin]; unfold usPerHour usPerMin; ring
  refine ⟨?_, ?_, ?_, ?_, ?_⟩
  · unfold dtSecond usPerSec
    unfold usPerMin at hK
    omega
  · unfold dtMicrosecond usPerSec
    unfold usPerMin at hK
    omega
  · have hminute : dtMinute t =
        (60 * (now / usPerHour) + (m - s) - (i : Int)) % 60 := by
      unfold dtMinute usPerMin
      unfold usPerMin at hK
      omega
    rw [hminute]
    have hdvdK : (i : Int) ∣ 60 * (now / usPerHour) + (m - s) - (i : Int) :=
      dvd_sub (dvd_add (hdvd.mul_right _) hdvd_ms) dvd_rfl
    rw [Int.emod_def]
    exact dvd_sub hdvdK (hdvd.mul_right _)
  · have hm : m = (now / usPerMin) % 60 := rfl
    unfold usPerMin usPerHour at hlin
    unfold usPerMin at hm ⊢
    omega
  · have hm : m = (now / usPerMin) % 60 := rfl
    unfold usPerMin usPerHour at hlin
    unfold usPerMin at hm ⊢
    omega

/-- C3: the average endpoint passes a supplied `query_datetime` verbatim
as the storage query's start time, bypassing alignment; with no
`query_datetime` the start time is the aligned current time with the
configured interval. -/
theorem fetch_average_start_time_spec (cfg : Nat) (now : Int)
    (building_id room_id : String) (db : List AvgTemperatureRow) :
    (∀ t, fetch_average_temperature cfg now building_id room_id (some t)
        db .ok =
      average_response
        (get_average_temperature db building_id room_id (some t))) ∧
    (fetch_average_temperature cfg now building_id room_id none db .ok =
      average_response (get_average_temperature db building_id room_id
        (some (align_time_to_interval cfg now none)))) := by
  constructor
  · intro t
    cases hg : get_average_temperature db building_id room_id (some t) <;>
      simp [fetch_average_temperature, average_response, hg]
  · cases hg : get_average_temperature db building_id room_id
        (some (align_time_to_interval cfg now none)) <;>
      simp [fetch_average_temperature, average_response, hg]

/-- C10: the endpoint always hands `get_average_temperature` a present
(`some`) start time — `fetch_start_time` — so its answer is always the
range branch; the latest-single-bucket branch is unreachable from the
public average endpoint. -/
theorem fetch_average_never_latest_bucket (cfg : Nat) (now : Int)
    (building_id room_id : String) (query_datetime : Option Int)
    (db : List AvgTemperatureRow) :
    get_average_temperature db building_id room_id
        (some (fetch_start_time cfg now query_datetime)) =
      get_average_range db building_id room_id
        (fetch_start_time cfg now query_datetime) ∧
    fetch_average_temperature cfg now building_id room_id query_datetime
        db .ok =
      average_response (get_average_range db building_id room_id
        (fetch_start_time cfg now query_datetime)) := by
  refine ⟨rfl, ?_⟩
  have heq : ∀ st, get_average_temperature db building_id room_id
      (some st) = get_average_range db building_id room_id st :=
    fun st => rfl
  cases query_datetime with
  | some t =>
    rw [show fetch_start_time cfg now (some t) = t from rfl, ← heq t]
    cases hg : get_average_temperature db building_id room_id (some t) <;>
      simp [fetch_average_temperature, average_response, hg]
  | none =>
    rw [show fetch_start_time cfg now none =
      align_time_to_interval cfg now none from rfl,
      ← heq (align_time_to_interval cfg now none)]
    cases hg : get_average_temperature db building_id room_id
        (some (align_time_to_interval cfg now none)) <;>
      simp [fetch_average_temperature, average_response, hg]

/-- C6: when no aggregate row matches the query, the endpoint answers
HTTP 200 with a null average and `"No data found"` — not an error, and
distinct from any numeric answer. -/
theorem fetch_average_no_data (cfg : Nat) (now : Int)
    (building_id room_id : String) (query_datetime : Option Int)
    (db : List AvgTemperatureRow)
    (h : db.filter (fun r => avg_row_matches building_id room_id r &&
      decide (fetch_start_time cfg now query_datetime ≤ r.bucket)) = []) :
    fetch_average_temperature cfg now building_id room_id query_datetime
        db .ok =
      ⟨200, .averageBody none (some "No data found")⟩ := by
  have hg : get_average_temperature db building_id room_id
      (some (fetch_start_time cfg now query_datetime)) = none := by
    simp [get_average_temperature, h]
  cases query_datetime with
  | some t =>
    have hg' : get_average_temperature db building_id room_id (some t)
        = none := hg
    simp [fetch_average_temperature, hg']
  | none =>
    have hg' : get_average_temperature db building_id room_id
        (some (align_time_to_interval cfg now none)) = none := hg
    simp [fetch_average_temperature, hg']

/-- Witness for C6 on an empty aggregate view. -/
theorem fetch_average_no_data_witness :
    fetch_average_temperature 4 0 "1" "101" (some 0) [] .ok =
      ⟨200, .averageBody none (some "No data found")⟩ :=
  fetch_average_no_data 4 0 "1" "101" (some 0) [] rfl

/-- C4 counterexample: a naive-timestamp reading with otherwise valid
fields is answered 500 (the `ValueError` lands in the generic handler),
not a 4xx validation error. -/
theorem naive_timestamp_counterexample :
    (add_temperature ⟨"1", "101", 22, 0, false⟩ [] .ok "ref-1").1.status
        = 500 ∧
      ¬(400 ≤ (add_temperature ⟨"1", "101", 22, 0, false⟩ [] .ok
          "ref-1").1.status ∧
        (add_temperature ⟨"1", "101", 22, 0, false⟩ [] .ok
          "ref-1").1.status < 500) := by
  decide

/-- C4 (amended): a naive-timestamp reading with valid fields is
rejected — nothing is stored — but with the generic HTTP 500
unexpected-error response carrying an incident reference, for any
database outcome. -/
theorem add_temperature_naive_timestamp (req : TemperatureRequestData)
    (db : List TemperatureRow) (outcome : DbOutcome) (incident_id : String)
    (hv : temperature_request_valid req = true)
    (hn : req.tz_aware = false) :
    add_temperature req db outcome incident_id =
      (⟨500, .errorBody
        ("An unexpected error occurred. Reference ID: " ++ incident_id)
        500⟩, db) := by
  simp [add_temperature, insert_temperature, hv, hn]

/-- Witness for the amended C4 at a concrete request. -/
theorem add_temperature_naive_timestamp_witness :
    add_temperature ⟨"1", "101", 22, 0, false⟩ [] .ok "ref-1" =
      (⟨500, .errorBody
        ("An unexpected error occurred. Reference ID: " ++ "ref-1")
        500⟩, []) :=
  add_temperature_naive_timestamp ⟨"1", "101", 22, 0, false⟩ [] .ok
    "ref-1" (by decide) rfl

/-- C5 counterexample: an empty `building_id` passes the request schema
(`max_length` only, no minimum), so ingestion answers 201, not the
claimed 422. -/
theorem empty_id_accepted_counterexample :
    (add_temperature ⟨"", "101", 22, 0, true⟩ [] .ok "ref-1").1 =
      ⟨201, .message "Temperature data added"⟩ ∧
    (add_temperature ⟨"", "101", 22, 0, true⟩ [] .ok "ref-1").1.status
      ≠ 422 := by
  decide

/-- C5 (amended): ingestion answers 201 with `"Temperature data added"`
for any reading with temperature in `[-50, 50]` and ids at most 255
characters (empty ids included — the schema sets no minimum length),
provided the timestamp is timezone-aware and storage succeeds; it
answers 422 exactly when the temperature leaves `[-50, 50]` or an id
exceeds 255 characters. -/
theorem add_temperature_validation (req : TemperatureRequestData)
    (db : List TemperatureRow) (outcome : DbOutcome)
    (incident_id : String) :
    (req.building_id.length ≤ 255 → req.room_id.length ≤ 255 →
      -50 ≤ req.temperature → req.temperature ≤ 50 →
      req.tz_aware = true → outcome = .ok →
      add_temperature req db outcome incident_id =
        (⟨201, .message "Temperature data added"⟩, db ++
          [⟨req.building_id, req.room_id, req.temperature,
            req.timestamp⟩])) ∧
    (¬(-50 ≤ req.temperature ∧ req.temperature ≤ 50) ∨
      255 < req.building_id.length ∨ 255 < req.room_id.length →
      add_temperature req db outcome incident_id =
        (⟨422, .validationDetail⟩, db)) := by
  constructor
  · intro h1 h2 h3 h4 h5 h6
    subst h6
    have hv : temperature_request_valid req = true := by
      simp [temperature_request_valid, h1, h2, h3, h4]
    simp [add_temperature, insert_temperature, hv, h5]
  · intro h
    have hv : temperature_request_valid req = false := by
      simp only [temperature_request_valid, Bool.and_eq_false_iff,
        decide_eq_false_iff_not, not_le]
      rcases h with h | h | h
      · rcases lt_or_le req.temperature (-50) with h' | h'
        · left; right; exact h'
        · right; exact lt_of_not_ge fun hg => h ⟨h', hg⟩
      · left; left; left; exact h
      · left; left; right; exact h
    simp [add_temperature, hv]


/-- Witness for the amended C5 at a concrete valid request. -/
theorem add_temperature_validation_witness :
    add_temperature ⟨"1", "101", 22, 5, true⟩ [] .ok "ref-1" =
      (⟨201, .message "Temperature data added"⟩,
        [] ++ [⟨"1", "101", 22, 5⟩]) :=
  (add_temperature_validation ⟨"1", "101", 22, 5, true⟩ [] .ok "ref-1").1
    (by decide) (by decide) (by decide) (by decide) rfl rfl

/-- C8: when the commit raises `SQLAlchemyError`, the write is rolled
back — the table the client observes afterwards is exactly the table
from before the request — and the client receives HTTP 500 with body
`{"error": "Database error occurred.", "code": 500}`. -/
theorem add_temperature_db_error_rollback (req : TemperatureRequestData)
    (db : List TemperatureRow) (incident_id : String)
    (hv : temperature_request_valid req = true)
    (ha : req.tz_aware = true) :
    add_temperature req db .sqlError incident_id =
      (⟨500, .errorBody "Database error occurred." 500⟩, db) := by
  simp [add_temperature, insert_temperature, hv, ha]

/-- Witness for C8 at a concrete request. -/
theorem add_temperature_db_error_rollback_witness :
    add_temperature ⟨"1", "101", 22, 5, true⟩ [] .sqlError "ref-1" =
      (⟨500, .errorBody "Database error occurred." 500⟩, []) :=
  add_temperature_db_error_rollback ⟨"1", "101", 22, 5, true⟩ [] "ref-1"
    (by decide) rfl

/-- Witness for C1 at a concrete time and interval. -/
theorem align_time_to_interval_spec_witness :
    dtSecond (align_time_to_interval 4 3900000000 (some 5)) = 0 ∧
    dtMicrosecond (align_time_to_interval 4 3900000000 (some 5)) = 0 ∧
    ((5 : Nat) : Int) ∣ dtMinute (align_time_to_interval 4 3900000000
      (some 5)) ∧
    ((5 : Nat) : Int) * usPerMin ≤
      3900000000 - align_time_to_interval 4 3900000000 (some 5) ∧
    3900000000 - align_time_to_interval 4 3900000000 (some 5) <
      2 * ((5 : Nat) : Int) * usPerMin :=
  align_time_to_interval_spec 4 3900000000 5 (by decide) (by decide)

